import Mathlib

/-!
PQC readiness lab: the milestone-1 KEM and DSA demo programs.

A shallow embedding of `src/c/kem_demo/kem_demo.c` and
`src/c/dsa_demo/dsa_demo.c`.  Each program is a `main` that issues a fixed
sequence of `printf` calls and returns `0`.  A run is modelled as the list
of observable events it produces (text written to standard output, calls
into the cryptography provider) together with the returned exit code.
-/

set_option maxRecDepth 100000

namespace PqcLab

/-! ## The environment of a run -/

/-- A byte sequence; every element stands for one octet. -/
abbrev Bytes := List Nat

/-- Modelled from the spec: the primitive provider interface of section 6
(`keygen`, `encap`, `decap`, `sign`, `verify`), which the programs reach
through the header `oqs/oqs.h`; the header is not among the sources.  The
first argument of every operation is the provider's internal state, an
operation that fails yields `none`. -/
structure Provider where
  state : Nat
  keygen : Nat → String → Option (Bytes × Bytes)
  encap : Nat → String → Bytes → Option (Bytes × Bytes)
  decap : Nat → String → Bytes → Bytes → Option Bytes
  sign : Nat → String → Bytes → Bytes → Option Bytes
  verify : Nat → String → Bytes → Bytes → Bytes → Bool

/-- Everything a run of one of the programs could depend on: the command
line, the environment variables and the linked provider. -/
structure Invocation where
  argv : List String
  envp : List (String × String)
  provider : Provider

/-- An observable step of a run: text handed to `printf`, or one call of a
provider operation with its arguments and results. -/
inductive Event where
  | printf (s : String)
  | keygen (alg : String) (pk sk : Bytes)
  | encap (alg : String) (pk ct ss : Bytes)
  | decap (alg : String) (sk ct ss : Bytes)
  | sign (alg : String) (sk msg sig : Bytes)
  | verify (alg : String) (pk msg sig : Bytes) (valid : Bool)
  deriving DecidableEq

/-- The result of running `main`: the events in program order and the value
returned from `main`. -/
structure Run where
  trace : List Event
  exit : Int
  deriving DecidableEq

/-- The C call `printf(s)` with a format string free of conversions: the
string is appended to what the run has done so far. -/
def printf (s : String) (tr : List Event) : List Event :=
  tr ++ [Event.printf s]

/-! ## The two programs -/

namespace kem_demo

/-- The function `main` of `src/c/kem_demo/kem_demo.c`. -/
def main (_inv : Invocation) : Run :=
  let tr : List Event := []
  let tr := printf "PQC Lab - KEM Demo (Milestone 1)\n" tr
  let tr := printf "================================\n\n" tr
  let tr := printf "This is a placeholder implementation for milestone 1.\n" tr
  let tr := printf "Full KEM functionality will be implemented in milestone 2.\n\n" tr
  let tr := printf "Planned features:\n" tr
  let tr := printf "- Key generation (keypair)\n" tr
  let tr := printf "- Encapsulation (encap)\n" tr
  let tr := printf "- Decapsulation (decap)\n" tr
  let tr := printf "- Shared secret derivation\n" tr
  let tr := printf "- Performance measurement\n\n" tr
  let tr := printf "Supported algorithms (planned):\n" tr
  let tr := printf "- ML-KEM-512  (NIST Level 1)\n" tr
  let tr := printf "- ML-KEM-768  (NIST Level 3) - RECOMMENDED\n" tr
  let tr := printf "- ML-KEM-1024 (NIST Level 5)\n\n" tr
  let tr := printf "Status: Placeholder - not yet implemented\n" tr
  let tr := printf "Exit code: 0 (success)\n" tr
  { trace := tr, exit := 0 }

end kem_demo

namespace dsa_demo

/-- The function `main` of `src/c/dsa_demo/dsa_demo.c`. -/
def main (_inv : Invocation) : Run :=
  let tr : List Event := []
  let tr := printf "PQC Lab - DSA Demo (Milestone 1)\n" tr
  let tr := printf "================================\n\n" tr
  let tr := printf "This is a placeholder implementation for milestone 1.\n" tr
  let tr := printf "Full DSA functionality will be implemented in milestone 2.\n\n" tr
  let tr := printf "Planned features:\n" tr
  let tr := printf "- Key generation (keypair)\n" tr
  let tr := printf "- Message signing (sign)\n" tr
  let tr := printf "- Signature verification (verify)\n" tr
  let tr := printf "- Performance measurement\n" tr
  let tr := printf "- Memory usage analysis\n\n" tr
  let tr := printf "Supported algorithms (planned):\n" tr
  let tr := printf "- ML-DSA-44  (NIST Level 1)\n" tr
  let tr := printf "- ML-DSA-65  (NIST Level 3) - RECOMMENDED\n" tr
  let tr := printf "- ML-DSA-87  (NIST Level 5)\n\n" tr
  let tr := printf "Status: Placeholder - not yet implemented\n" tr
  let tr := printf "Exit code: 0 (success)\n" tr
  { trace := tr, exit := 0 }

end dsa_demo

/-! ## Reading a run -/

/-- The text a single event writes to standard output. -/
def Event.text : Event → List Char
  | Event.printf s => s.data
  | _ => []

/-- Whether the event is a call into the provider. -/
def Event.isProviderCall : Event → Bool
  | Event.printf _ => false
  | _ => true

/-- The characters written to standard output by a trace, in order. -/
def stdoutChars : List Event → List Char
  | [] => []
  | e :: es => e.text ++ stdoutChars es

/-- Cuts text into lines at every newline; `cur` holds the current line in
reverse.  A trailing piece without a newline is a line of its own. -/
def linesAux : List Char → List Char → List String
  | [], cur => if cur.isEmpty then [] else [String.mk cur.reverse]
  | c :: cs, cur =>
    if c = '\n' then String.mk cur.reverse :: linesAux cs [] else linesAux cs (c :: cur)

/-- The lines a run shows on standard output. -/
def outputLines (r : Run) : List String :=
  linesAux (stdoutChars r.trace) []

/-- The lines that follow the first occurrence of `header`, up to the next
empty line; `none` when the header line is absent. -/
def sectionAfter (header : String) : List String → Option (List String)
  | [] => none
  | l :: ls => if l = header then some (ls.takeWhile (fun x => x ≠ "")) else sectionAfter header ls

/-- The text of a bullet line `- text`; `none` for any other line. -/
def bulletText (l : String) : Option String :=
  match l.data with
  | '-' :: ' ' :: rest => some (String.mk rest)
  | _ => none

/-- The bullet entries listed directly under `header`; `none` when the
header is absent or a line of the section is not a bullet. -/
def bulletsUnder (header : String) (r : Run) : Option (List String) :=
  match sectionAfter header (outputLines r) with
  | none => none
  | some ls => ls.mapM bulletText

/-- One line of a program's list of supported algorithms. -/
structure Entry where
  id : String
  level : Nat
  recommended : Bool
  deriving DecidableEq

/-- The value of a decimal digit character. -/
def digitValue (c : Char) : Option Nat :=
  if c.isDigit then some (c.toNat - '0'.toNat) else none

/-- Removes `pre` from the front of `cs`; `none` when `cs` does not start
with it. -/
def dropFront : List Char → List Char → Option (List Char)
  | [], cs => some cs
  | _ :: _, [] => none
  | p :: ps, c :: cs => if p = c then dropFront ps cs else none

/-- Reads the text of a supported-algorithm bullet, of the shape
`ID  (NIST Level N)` with an optional ` - RECOMMENDED` behind it. -/
def parseEntry (s : String) : Option Entry :=
  let id := s.data.takeWhile (fun c => c ≠ ' ')
  let rest := (s.data.dropWhile (fun c => c ≠ ' ')).dropWhile (fun c => c = ' ')
  match dropFront "(NIST Level ".data rest with
  | some (d :: ')' :: tl) =>
    match digitValue d with
    | none => none
    | some n =>
      if tl = [] then some { id := String.mk id, level := n, recommended := false }
      else if tl = " - RECOMMENDED".data then
        some { id := String.mk id, level := n, recommended := true }
      else none
  | _ => none

/-- The entries a run lists under `Supported algorithms (planned):`; `none`
when the list is missing or holds a line of another shape. -/
def supportedEntries (r : Run) : Option (List Entry) :=
  match bulletsUnder "Supported algorithms (planned):" r with
  | none => none
  | some bs => bs.mapM parseEntry

/-- The identifiers a run declares as supported, in the order printed. -/
def declaredIds (r : Run) : List String :=
  match supportedEntries r with
  | none => []
  | some es => es.map (fun e => e.id)

/-- The exit code a line of the shape `Exit code: N (...)` announces. -/
def announcedCode (l : String) : Option Int :=
  match dropFront "Exit code: ".data l.data with
  | some (d :: ' ' :: _) =>
    match digitValue d with
    | none => none
    | some n => some (Int.ofNat n)
  | _ => none

/-- The provider calls of a trace, printing left out. -/
def providerCalls (tr : List Event) : List Event :=
  tr.filter Event.isProviderCall

/-! ## Round trips through the provider -/

/-- Number of one bits among the low eight bits of `n`. -/
def popCount8 (n : Nat) : Nat :=
  ((List.range 8).filter (fun i => n.testBit i)).length

/-- Number of bit positions in which two byte sequences of equal length
differ; `none` when the lengths differ. -/
def bitDistance : Bytes → Bytes → Option Nat
  | [], [] => some 0
  | a :: as, b :: bs =>
    match bitDistance as bs with
    | none => none
    | some d => some (popCount8 (a ^^^ b) + d)
  | _, _ => none

/-- The pairs (sender secret, receiver secret) of every complete round trip
for `alg` recorded in a trace: a key generation, an encapsulation to that
public key, and a decapsulation of that ciphertext under that secret key. -/
def kemRoundTrips (tr : List Event) (alg : String) : List (Bytes × Bytes) :=
  tr.flatMap fun e1 =>
    match e1 with
    | Event.keygen a pk sk =>
      if a = alg then
        tr.flatMap fun e2 =>
          match e2 with
          | Event.encap b pk2 ct ss =>
            if b = alg ∧ pk2 = pk then
              tr.filterMap fun e3 =>
                match e3 with
                | Event.decap c sk2 ct2 ss2 =>
                  if c = alg ∧ sk2 = sk ∧ ct2 = ct then some (ss, ss2) else none
                | _ => none
            else []
          | _ => []
      else []
    | _ => []

/-- The pairs (verdict on the genuine signature, verdict on a copy with one
bit flipped) of every complete sign and verify check for `alg` recorded in
a trace. -/
def dsaChecks (tr : List Event) (alg : String) : List (Bool × Bool) :=
  tr.flatMap fun e1 =>
    match e1 with
    | Event.keygen a pk sk =>
      if a = alg then
        tr.flatMap fun e2 =>
          match e2 with
          | Event.sign b sk2 msg sig =>
            if b = alg ∧ sk2 = sk then
              tr.flatMap fun e3 =>
                match e3 with
                | Event.verify c pk3 msg3 sig3 ok =>
                  if c = alg ∧ pk3 = pk ∧ msg3 = msg ∧ sig3 = sig then
                    tr.filterMap fun e4 =>
                      match e4 with
                      | Event.verify d pk4 msg4 sig4 bad =>
                        if d = alg ∧ pk4 = pk ∧ msg4 = msg ∧ bitDistance sig sig4 = some 1 then
                          some (ok, bad)
                        else none
                      | _ => none
                  else []
                | _ => []
            else []
          | _ => []
      else []
    | _ => []

/-- The KEM identifiers of the supported set of section 4.1. -/
def kemIds : List String := ["ML-KEM-512", "ML-KEM-768", "ML-KEM-1024"]

/-- The DSA identifiers of the supported set of section 4.1. -/
def dsaIds : List String := ["ML-DSA-44", "ML-DSA-65", "ML-DSA-87"]

/-- The supported set of section 4.1. -/
def supportedIds : List String := kemIds ++ dsaIds

/-! ## The algorithm registry -/

/-- The family of an algorithm. -/
inductive Family where
  | KEM
  | DSA
  deriving DecidableEq

/-- The error taxonomy of section 7. -/
inductive Error where
  | UnknownAlgorithm
  | InvalidConfiguration
  | InvalidInput
  | ProviderError
  | AllTrialsFailed
  | CryptographicMismatch
  deriving DecidableEq

/-- The record `AlgorithmSpec` of section 3. -/
structure AlgorithmSpec where
  id : String
  family : Family
  security_level : Nat
  public_key_len : Nat
  secret_key_len : Nat
  ciphertext_or_signature_len : Nat
  deriving DecidableEq

/-- The byte lengths of one parameter set: public key, secret key,
ciphertext or signature. -/
structure Sizes where
  public_key_len : Nat
  secret_key_len : Nat
  ciphertext_or_signature_len : Nat

/-- Modelled from the spec: the static table of the Algorithm Registry
(sections 2 and 4.1), which no source file defines.  It has one row per
identifier of the supported set; the security levels are those of the
scenarios of section 8 and of the lists the two programs print.  The spec
gives no byte lengths, they are taken from `sizes`. -/
def registry (sizes : String → Sizes) : List AlgorithmSpec :=
  let row (id : String) (f : Family) (lvl : Nat) : AlgorithmSpec :=
    { id := id, family := f, security_level := lvl,
      public_key_len := (sizes id).public_key_len,
      secret_key_len := (sizes id).secret_key_len,
      ciphertext_or_signature_len := (sizes id).ciphertext_or_signature_len }
  [ row "ML-KEM-512" Family.KEM 1, row "ML-KEM-768" Family.KEM 3, row "ML-KEM-1024" Family.KEM 5,
    row "ML-DSA-44" Family.DSA 1, row "ML-DSA-65" Family.DSA 3, row "ML-DSA-87" Family.DSA 5 ]

/-- Modelled from the spec: the operation `lookup(id) -> AlgorithmSpec` of
section 4.1, which no source file defines: a pure search of the registry
that fails with `UnknownAlgorithm` when no row carries the identifier. -/
def lookup (sizes : String → Sizes) (id : String) : Except Error AlgorithmSpec :=
  match (registry sizes).find? (fun s => s.id = id) with
  | some s => Except.ok s
  | none => Except.error Error.UnknownAlgorithm

/-! ## Claims about runs, as predicates -/

/-- Whether `id` begins with the family tag `tag`, such as `ML-KEM`. -/
def hasTag (tag id : String) : Bool :=
  (dropFront tag.data id.data).isSome

/-- The security level a run prints next to `id`, when it lists `id`. -/
def declaredLevel (r : Run) (id : String) : Option Nat :=
  match supportedEntries r with
  | none => none
  | some es =>
    match es.find? (fun e => e.id = id) with
    | none => none
    | some e => some e.level

/-- The security level the two programs give `id`: the KEM demo's list is
read first, then the DSA demo's. -/
def levelOf (inv : Invocation) (id : String) : Option Nat :=
  match declaredLevel (kem_demo.main inv) id with
  | some l => some l
  | none => declaredLevel (dsa_demo.main inv) id

/-- The entries of a run's supported-algorithm list marked RECOMMENDED. -/
def recommendedEntries (r : Run) : Option (List Entry) :=
  match supportedEntries r with
  | none => none
  | some es => some (es.filter (fun e => e.recommended))

/-- The run carried out a KEM round trip for `alg` and every round trip it
carried out ended with byte-equal shared secrets. -/
def carriesOutKemRoundTrip (r : Run) (alg : String) : Prop :=
  kemRoundTrips r.trace alg ≠ [] ∧ ∀ p ∈ kemRoundTrips r.trace alg, p.1 = p.2

/-- The run carried out a sign and verify check for `alg` and in every
check the genuine signature was accepted and the corrupted one rejected. -/
def carriesOutDsaCheck (r : Run) (alg : String) : Prop :=
  dsaChecks r.trace alg ≠ [] ∧ ∀ p ∈ dsaChecks r.trace alg, p.1 = true ∧ p.2 = false

/-- Whether `needle` occurs as a contiguous piece of the text. -/
def occursIn (needle : List Char) : List Char → Bool
  | [] => (dropFront needle []).isSome
  | c :: cs => (dropFront needle (c :: cs)).isSome || occursIn needle cs

/-- Whether the line contains one of the words, letter case ignored. -/
def mentions (words : List String) (line : String) : Bool :=
  words.any (fun w => occursIn (w.data.map Char.toLower) (line.data.map Char.toLower))

/-- The lines of a run's output that mention one of the words. -/
def linesMentioning (words : List String) (r : Run) : List String :=
  (outputLines r).filter (mentions words)

/-- The lines of the section under `header` that mention one of the words;
`none` when the header is absent. -/
def sectionMentioning (header : String) (words : List String) (r : Run) :
    Option (List String) :=
  match sectionAfter header (outputLines r) with
  | none => none
  | some ls => some (ls.filter (mentions words))

/-- The words by which a line of output would speak of a KEM round trip. -/
def kemWords : List String :=
  ["keygen", "key generation", "keypair", "encap", "decap", "secret", "round trip",
    "round-trip", "roundtrip"]

/-- The words by which a line of output would speak of a sign and verify
check. -/
def dsaWords : List String :=
  ["keygen", "key generation", "keypair", "sign", "verif", "bit flip", "bit-flip",
    "corrupt"]

/-! ## Concrete environments -/

/-- A provider whose every operation fails. -/
def failingProvider : Provider :=
  { state := 0
    keygen := fun _ _ => none
    encap := fun _ _ _ => none
    decap := fun _ _ _ _ => none
    sign := fun _ _ _ _ => none
    verify := fun _ _ _ _ _ => false }

/-- A toy provider that is functionally correct: the shared secret is the
public key, which equals the secret key, and a signature is the message
followed by the key. -/
def toyProvider : Provider :=
  { state := 7
    keygen := fun st _ => some ([st % 256], [st % 256])
    encap := fun _ _ pk => some (pk, pk)
    decap := fun _ _ sk _ => some sk
    sign := fun _ _ sk msg => some (msg ++ sk)
    verify := fun _ _ pk msg sig => decide (sig = msg ++ pk) }

/-- A run without arguments or environment, against the failing provider. -/
def bareInvocation : Invocation :=
  { argv := ["kem_demo"], envp := [], provider := failingProvider }

/-- A run with arguments and an environment, against the toy provider. -/
def busyInvocation : Invocation :=
  { argv := ["dsa_demo", "--alg", "ML-DSA-87", "--trials", "100"],
    envp := [("OQS_ALG", "ML-KEM-768")], provider := toyProvider }

/-- Byte lengths used where a concrete table is needed. -/
def unitSizes : String → Sizes :=
  fun _ => { public_key_len := 1, secret_key_len := 1, ciphertext_or_signature_len := 1 }

/-! ## Helper lemmas -/

/-- The KEM demo does not read its invocation. -/
theorem kem_main_eq (inv : Invocation) : kem_demo.main inv = kem_demo.main bareInvocation :=
  rfl

/-- The DSA demo does not read its invocation. -/
theorem dsa_main_eq (inv : Invocation) : dsa_demo.main inv = dsa_demo.main bareInvocation :=
  rfl

/-- The level of an identifier does not depend on the invocation. -/
theorem levelOf_eq (inv : Invocation) (id : String) : levelOf inv id = levelOf bareInvocation id :=
  rfl

/-- The rows of the registry carry the supported identifiers, in order. -/
theorem registry_ids (sizes : String → Sizes) :
    (registry sizes).map (fun s => s.id) = supportedIds :=
  rfl

/-- The security levels of the registry rows are the levels the two
programs print next to the same identifiers. -/
theorem registry_levels_printed (sizes : String → Sizes) :
    (registry sizes).map (fun s => (s.id, some s.security_level)) =
      supportedIds.map (fun id => (id, levelOf bareInvocation id)) := by
  have h : supportedIds.map (fun id => (id, levelOf bareInvocation id)) =
      [("ML-KEM-512", some 1), ("ML-KEM-768", some 3), ("ML-KEM-1024", some 5),
        ("ML-DSA-44", some 1), ("ML-DSA-65", some 3), ("ML-DSA-87", some 5)] := by decide
  rw [h]
  rfl

/-- A search by identifier fails exactly on the lists without it. -/
theorem find_id_none (id : String) (rows : List AlgorithmSpec)
    (h : id ∉ rows.map (fun s => s.id)) :
    rows.find? (fun s => decide (s.id = id)) = none := by
  induction rows with
  | nil => rfl
  | cons r rs ih =>
    simp only [List.map_cons, List.mem_cons, not_or] at h
    have hne : ¬ r.id = id := fun e => h.1 e.symm
    simp only [List.find?_cons, hne, decide_False]
    exact ih h.2

/-- A search by identifier succeeds on the lists that hold it. -/
theorem find_id_some (id : String) (rows : List AlgorithmSpec)
    (h : id ∈ rows.map (fun s => s.id)) :
    ∃ s, rows.find? (fun s => decide (s.id = id)) = some s ∧ s.id = id := by
  induction rows with
  | nil => simp at h
  | cons r rs ih =>
    by_cases hr : r.id = id
    · exact ⟨r, by simp [List.find?_cons, hr], hr⟩
    · simp only [List.map_cons, List.mem_cons] at h
      rcases h with h | h
      · exact absurd h.symm hr
      · obtain ⟨s, hs, hid⟩ := ih h
        exact ⟨s, by simp [List.find?_cons, hr, hs], hid⟩

/-! ## The claims -/

/-- C1: for every invocation, whatever its arguments, its environment and
the provider it is linked against, `main` of the KEM demo and `main` of the
DSA demo each finish with exit code 0; both are total functions whose
returned code is never anything else. -/
theorem main_exit_zero (inv : Invocation) :
    (kem_demo.main inv).exit = 0 ∧ (dsa_demo.main inv).exit = 0 :=
  ⟨rfl, rfl⟩

/-- C2: each `main` is a constant function of its invocation: any two runs
produce the same events (hence the same output) and the same exit code,
and the trace of a run holds no provider call at all (no keygen, encap,
decap, sign or verify). -/
theorem main_constant_without_provider (inv₁ inv₂ : Invocation) :
    kem_demo.main inv₁ = kem_demo.main inv₂ ∧
    dsa_demo.main inv₁ = dsa_demo.main inv₂ ∧
    outputLines (kem_demo.main inv₁) = outputLines (kem_demo.main inv₂) ∧
    outputLines (dsa_demo.main inv₁) = outputLines (dsa_demo.main inv₂) ∧
    (kem_demo.main inv₁).exit = (kem_demo.main inv₂).exit ∧
    (dsa_demo.main inv₁).exit = (dsa_demo.main inv₂).exit ∧
    providerCalls (kem_demo.main inv₁).trace = [] ∧
    providerCalls (dsa_demo.main inv₁).trace = [] := by
  refine ⟨rfl, rfl, rfl, rfl, rfl, rfl, ?_, ?_⟩
  · rw [kem_main_eq]; decide
  · rw [dsa_main_eq]; decide

/-- C3: the KEM demo's list of supported algorithms is exactly ML-KEM-512,
ML-KEM-768, ML-KEM-1024 in that order, the DSA demo's is exactly ML-DSA-44,
ML-DSA-65, ML-DSA-87 in that order, neither list holds an identifier of the
other family, and the identifiers declared by the two programs together are
exactly the six of the supported set. -/
theorem declared_ids_exact (inv : Invocation) :
    declaredIds (kem_demo.main inv) = ["ML-KEM-512", "ML-KEM-768", "ML-KEM-1024"] ∧
    declaredIds (dsa_demo.main inv) = ["ML-DSA-44", "ML-DSA-65", "ML-DSA-87"] ∧
    (declaredIds (kem_demo.main inv)).any (hasTag "ML-DSA") = false ∧
    (declaredIds (dsa_demo.main inv)).any (hasTag "ML-KEM") = false ∧
    (declaredIds (kem_demo.main inv)).all (hasTag "ML-KEM") = true ∧
    (declaredIds (dsa_demo.main inv)).all (hasTag "ML-DSA") = true ∧
    declaredIds (kem_demo.main inv) ++ declaredIds (dsa_demo.main inv) = supportedIds ∧
    (∀ id : String,
      id ∈ declaredIds (kem_demo.main inv) ++ declaredIds (dsa_demo.main inv) ↔
        id ∈ ["ML-KEM-512", "ML-KEM-768", "ML-KEM-1024", "ML-DSA-44", "ML-DSA-65", "ML-DSA-87"]) := by
  rw [kem_main_eq, dsa_main_eq]
  have hk : declaredIds (kem_demo.main bareInvocation) =
      ["ML-KEM-512", "ML-KEM-768", "ML-KEM-1024"] := by decide
  have hd : declaredIds (dsa_demo.main bareInvocation) =
      ["ML-DSA-44", "ML-DSA-65", "ML-DSA-87"] := by decide
  rw [hk, hd]
  refine ⟨rfl, rfl, by decide, by decide, by decide, by decide, by decide, ?_⟩
  intro id
  exact Iff.rfl

/-- C4: in the lists the programs print, every identifier of the supported
set carries a security level, and that level is 1, 3 or 5: ML-KEM-512 and
ML-DSA-44 carry level 1, ML-KEM-768 and ML-DSA-65 level 3, ML-KEM-1024 and
ML-DSA-87 level 5; in particular ML-KEM-768 has level 3 and ML-DSA-87 has
level 5. -/
theorem declared_levels (inv : Invocation) :
    supportedIds.map (levelOf inv) = [some 1, some 3, some 5, some 1, some 3, some 5] ∧
    supportedIds.all
      (fun id => match levelOf inv id with
        | some l => decide (l = 1 ∨ l = 3 ∨ l = 5)
        | none => false) = true ∧
    levelOf inv "ML-KEM-768" = some 3 ∧
    levelOf inv "ML-DSA-87" = some 5 ∧
    supportedEntries (kem_demo.main inv) =
      some [⟨"ML-KEM-512", 1, false⟩, ⟨"ML-KEM-768", 3, true⟩, ⟨"ML-KEM-1024", 5, false⟩] ∧
    supportedEntries (dsa_demo.main inv) =
      some [⟨"ML-DSA-44", 1, false⟩, ⟨"ML-DSA-65", 3, true⟩, ⟨"ML-DSA-87", 5, false⟩] := by
  have hl : levelOf inv = levelOf bareInvocation := rfl
  rw [hl, kem_main_eq, dsa_main_eq]
  decide

/-- C5: the KEM demo prints the line `Planned features:` followed at once
by exactly five bullet entries, Key generation (keypair), Encapsulation
(encap), Decapsulation (decap), Shared secret derivation, Performance
measurement, in that order; the DSA demo prints `Planned features:`
followed at once by exactly Key generation (keypair), Message signing
(sign), Signature verification (verify), Performance measurement, Memory
usage analysis, in that order. -/
theorem planned_features (inv : Invocation) :
    bulletsUnder "Planned features:" (kem_demo.main inv) =
      some ["Key generation (keypair)", "Encapsulation (encap)", "Decapsulation (decap)",
        "Shared secret derivation", "Performance measurement"] ∧
    bulletsUnder "Planned features:" (dsa_demo.main inv) =
      some ["Key generation (keypair)", "Message signing (sign)",
        "Signature verification (verify)", "Performance measurement",
        "Memory usage analysis"] ∧
    (outputLines (kem_demo.main inv)).count "Planned features:" = 1 ∧
    (outputLines (dsa_demo.main inv)).count "Planned features:" = 1 := by
  rw [kem_main_eq, dsa_main_eq]
  decide

/-- C6: `lookup` fails with `UnknownAlgorithm` on every identifier outside
the supported set, in particular on `ML-KEM-999`, and succeeds on each of
the six supported identifiers, returning the row of that identifier. -/
theorem lookup_total (sizes : String → Sizes) :
    (∀ id : String, id ∉ supportedIds →
      lookup sizes id = Except.error Error.UnknownAlgorithm) ∧
    lookup sizes "ML-KEM-999" = Except.error Error.UnknownAlgorithm ∧
    (∀ id : String, id ∈ supportedIds →
      ∃ s, lookup sizes id = Except.ok s ∧ s.id = id) := by
  have hmiss : ∀ id : String, id ∉ supportedIds →
      lookup sizes id = Except.error Error.UnknownAlgorithm := by
    intro id h
    have hnone := find_id_none id (registry sizes) (by rw [registry_ids]; exact h)
    unfold lookup
    rw [hnone]
  refine ⟨hmiss, hmiss "ML-KEM-999" (by decide), ?_⟩
  intro id h
  obtain ⟨s, hs, hid⟩ := find_id_some id (registry sizes) (by rw [registry_ids]; exact h)
  refine ⟨s, ?_, hid⟩
  unfold lookup
  rw [hs]

/-- Witness for C6 at a concrete size table: an identifier outside the set
is refused and `ML-DSA-65` is found. -/
theorem lookup_total_witness :
    "ML-KEM-2048" ∉ supportedIds ∧
    lookup unitSizes "ML-KEM-2048" = Except.error Error.UnknownAlgorithm ∧
    "ML-DSA-65" ∈ supportedIds ∧
    (∃ s, lookup unitSizes "ML-DSA-65" = Except.ok s ∧ s.id = "ML-DSA-65") :=
  ⟨by decide, (lookup_total unitSizes).1 "ML-KEM-2048" (by decide), by decide,
    (lookup_total unitSizes).2.2 "ML-DSA-65" (by decide)⟩

/-- C7, as stated, fails: against a functionally correct provider the KEM
demo carries out no round trip for ML-KEM-768. -/
theorem kem_round_trip_absent :
    "ML-KEM-768" ∈ kemIds ∧
    ¬ carriesOutKemRoundTrip (kem_demo.main busyInvocation) "ML-KEM-768" := by
  refine ⟨by decide, ?_⟩
  intro h
  exact h.1 (by decide)

/-- C7, amended: on every run and for every algorithm the KEM demo carries
out no generate, encapsulate, decapsulate round trip, so it produces no
pair of shared secrets to compare; it makes no keygen, encap or decap call
and reports that it is a placeholder.  Encapsulation and decapsulation are
entries of its planned features, and the only lines of its whole output
that speak of key generation, encapsulation, decapsulation, a secret or a
round trip are four entries of that list, each printed once. -/
theorem kem_demo_no_round_trip (inv : Invocation) (alg : String) :
    kemRoundTrips (kem_demo.main inv).trace alg = [] ∧
    (kem_demo.main inv).trace.all (fun e => !e.isProviderCall) = true ∧
    (bulletsUnder "Planned features:" (kem_demo.main inv)).map
      (fun bs => decide ("Encapsulation (encap)" ∈ bs ∧ "Decapsulation (decap)" ∈ bs)) = some true ∧
    "Status: Placeholder - not yet implemented" ∈ outputLines (kem_demo.main inv) ∧
    linesMentioning kemWords (kem_demo.main inv) =
      ["- Key generation (keypair)", "- Encapsulation (encap)", "- Decapsulation (decap)",
        "- Shared secret derivation"] ∧
    sectionMentioning "Planned features:" kemWords (kem_demo.main inv) =
      some (linesMentioning kemWords (kem_demo.main inv)) := by
  rw [kem_main_eq]
  refine ⟨?_, by decide, by decide, by decide, by decide, by decide⟩
  simp [kemRoundTrips, kem_demo.main, printf]

/-- C8, as stated, fails: against a functionally correct provider the DSA
demo carries out no sign and verify check for ML-DSA-87. -/
theorem dsa_check_absent :
    "ML-DSA-87" ∈ dsaIds ∧
    ¬ carriesOutDsaCheck (dsa_demo.main busyInvocation) "ML-DSA-87" := by
  refine ⟨by decide, ?_⟩
  intro h
  exact h.1 (by decide)

/-- C8, amended: on every run and for every algorithm the DSA demo carries
out no sign and verify check, neither on a genuine signature nor on a
bit-flipped copy; it makes no keygen, sign or verify call and reports that
it is a placeholder.  Signing and verification are entries of its planned
features, and the only lines of its whole output that speak of key
generation, signing, signatures, verification or a corrupted copy are three
entries of that list, each printed once. -/
theorem dsa_demo_no_check (inv : Invocation) (alg : String) :
    dsaChecks (dsa_demo.main inv).trace alg = [] ∧
    (dsa_demo.main inv).trace.all (fun e => !e.isProviderCall) = true ∧
    (bulletsUnder "Planned features:" (dsa_demo.main inv)).map
      (fun bs => decide ("Message signing (sign)" ∈ bs ∧
        "Signature verification (verify)" ∈ bs)) = some true ∧
    "Status: Placeholder - not yet implemented" ∈ outputLines (dsa_demo.main inv) ∧
    linesMentioning dsaWords (dsa_demo.main inv) =
      ["- Key generation (keypair)", "- Message signing (sign)",
        "- Signature verification (verify)"] ∧
    sectionMentioning "Planned features:" dsaWords (dsa_demo.main inv) =
      some (linesMentioning dsaWords (dsa_demo.main inv)) := by
  rw [dsa_main_eq]
  refine ⟨?_, by decide, by decide, by decide, by decide, by decide⟩
  simp [dsaChecks, dsa_demo.main, printf]

/-- C9: in both programs, on every run, the last line written is
`Exit code: 0 (success)`, the line before it is
`Status: Placeholder - not yet implemented`, `main` returns 0, and the
code announced by the last line is the code returned. -/
theorem announced_exit_code (inv : Invocation) :
    (outputLines (kem_demo.main inv)).getLast? = some "Exit code: 0 (success)" ∧
    (outputLines (kem_demo.main inv)).dropLast.getLast? =
      some "Status: Placeholder - not yet implemented" ∧
    (kem_demo.main inv).exit = 0 ∧
    (outputLines (kem_demo.main inv)).getLast?.bind announcedCode =
      some (kem_demo.main inv).exit ∧
    (outputLines (dsa_demo.main inv)).getLast? = some "Exit code: 0 (success)" ∧
    (outputLines (dsa_demo.main inv)).dropLast.getLast? =
      some "Status: Placeholder - not yet implemented" ∧
    (dsa_demo.main inv).exit = 0 ∧
    (outputLines (dsa_demo.main inv)).getLast?.bind announcedCode =
      some (dsa_demo.main inv).exit := by
  rw [kem_main_eq, dsa_main_eq]
  decide

/-- C10: in each program's list of supported algorithms exactly one entry
is marked RECOMMENDED and it is the NIST Level 3 entry, ML-KEM-768 in the
KEM demo and ML-DSA-65 in the DSA demo; no entry of another level is
marked. -/
theorem one_recommended_entry (inv : Invocation) :
    recommendedEntries (kem_demo.main inv) = some [⟨"ML-KEM-768", 3, true⟩] ∧
    recommendedEntries (dsa_demo.main inv) = some [⟨"ML-DSA-65", 3, true⟩] ∧
    (supportedEntries (kem_demo.main inv)).map
      (fun es => es.filter (fun e => e.recommended && decide (e.level ≠ 3))) = some [] ∧
    (supportedEntries (dsa_demo.main inv)).map
      (fun es => es.filter (fun e => e.recommended && decide (e.level ≠ 3))) = some [] := by
  rw [kem_main_eq, dsa_main_eq]
  decide

end PqcLab
